import Mathlib

/-!
Verification of the plane-placement geometry of `yt_idv` (files
`yt_idv/scene_data/plane.py` and `yt_idv/scene_components/planes.py`).

The embedding models the numeric core over `ℚ`:

* numpy 3-vectors and homogeneous 4-vectors / 4x4 matrices become the explicit
  structures `Vec3`, `Vec4`, `Mat4`;
* `np.linalg.norm` becomes `norm3`, built on Mathlib's `Rat.sqrt` (the exact
  square root on perfect-square rationals; theorems that need an exact norm
  carry an explicit hypothesis that the norm square is a rational square);
* `BasePlane._set_plane` becomes `BasePlane.set_plane`, returning the
  `to_worldview` matrix or the `ValueError` the source raises
  (`PlaneError.nonAxisAligned`);
* `PlaneData.add_data` becomes `PlaneData.add_data`, an explicit state
  transformer over the instance attributes it mutates;
* the final `astype("f4")` single-precision cast is not modelled (the model
  computes exactly; the claims' 1e-5 tolerance absorbs the cast);
* IEEE NaN only arises in this code from normalizing a zero vector
  (`0.0 / 0.0`); where the distinction matters the model makes the zero-norm
  case explicit, since over `ℚ` division by zero yields `0`, not NaN.
-/

namespace YtIdv

/-- A numpy 3-vector of floats, modelled with exact rational entries. -/
structure Vec3 where
  x : ℚ
  y : ℚ
  z : ℚ
deriving DecidableEq, Repr

/-- A homogeneous 4-vector `(x, y, z, w)`. -/
structure Vec4 where
  x : ℚ
  y : ℚ
  z : ℚ
  w : ℚ
deriving DecidableEq, Repr

namespace Vec3

/-- Componentwise division by a scalar: `v / s` in numpy. -/
def divScalar (v : Vec3) (s : ℚ) : Vec3 :=
  ⟨v.x / s, v.y / s, v.z / s⟩

/-- Componentwise sum: `v + u` in numpy. -/
def add (v u : Vec3) : Vec3 :=
  ⟨v.x + u.x, v.y + u.y, v.z + u.z⟩

/-- Scalar multiple: `s * v` in numpy. -/
def smul (s : ℚ) (v : Vec3) : Vec3 :=
  ⟨s * v.x, s * v.y, s * v.z⟩

/-- Dot product `np.dot`. -/
def dot (v u : Vec3) : ℚ :=
  v.x * u.x + v.y * u.y + v.z * u.z

/-- Cross product `np.cross`. -/
def cross (v u : Vec3) : Vec3 :=
  ⟨v.y * u.z - v.z * u.y, v.z * u.x - v.x * u.z, v.x * u.y - v.y * u.x⟩

/-- Squared euclidean norm of a 3-vector. -/
def normSq (v : Vec3) : ℚ :=
  v.x * v.x + v.y * v.y + v.z * v.z

/-- Negation `-v`. -/
def neg (v : Vec3) : Vec3 :=
  ⟨-v.x, -v.y, -v.z⟩

end Vec3

/-- `np.linalg.norm` on a 3-vector: the square root of the norm square.
`Rat.sqrt` is the exact square root whenever the argument is the square of a
rational (which every theorem that relies on the numeric value of the norm
either establishes or assumes). -/
def norm3 (v : Vec3) : ℚ :=
  Rat.sqrt v.normSq

/-- A 4x4 homogeneous matrix with explicit entries; `mij` is row `i`,
column `j`. -/
structure Mat4 where
  m00 : ℚ
  m01 : ℚ
  m02 : ℚ
  m03 : ℚ
  m10 : ℚ
  m11 : ℚ
  m12 : ℚ
  m13 : ℚ
  m20 : ℚ
  m21 : ℚ
  m22 : ℚ
  m23 : ℚ
  m30 : ℚ
  m31 : ℚ
  m32 : ℚ
  m33 : ℚ
deriving DecidableEq, Repr

namespace Mat4

/-- `np.eye(4)`. -/
def eye : Mat4 :=
  ⟨1, 0, 0, 0,
   0, 1, 0, 0,
   0, 0, 1, 0,
   0, 0, 0, 1⟩

/-- `np.matmul` for 4x4 matrices. -/
def mul (a b : Mat4) : Mat4 where
  m00 := a.m00 * b.m00 + a.m01 * b.m10 + a.m02 * b.m20 + a.m03 * b.m30
  m01 := a.m00 * b.m01 + a.m01 * b.m11 + a.m02 * b.m21 + a.m03 * b.m31
  m02 := a.m00 * b.m02 + a.m01 * b.m12 + a.m02 * b.m22 + a.m03 * b.m32
  m03 := a.m00 * b.m03 + a.m01 * b.m13 + a.m02 * b.m23 + a.m03 * b.m33
  m10 := a.m10 * b.m00 + a.m11 * b.m10 + a.m12 * b.m20 + a.m13 * b.m30
  m11 := a.m10 * b.m01 + a.m11 * b.m11 + a.m12 * b.m21 + a.m13 * b.m31
  m12 := a.m10 * b.m02 + a.m11 * b.m12 + a.m12 * b.m22 + a.m13 * b.m32
  m13 := a.m10 * b.m03 + a.m11 * b.m13 + a.m12 * b.m23 + a.m13 * b.m33
  m20 := a.m20 * b.m00 + a.m21 * b.m10 + a.m22 * b.m20 + a.m23 * b.m30
  m21 := a.m20 * b.m01 + a.m21 * b.m11 + a.m22 * b.m21 + a.m23 * b.m31
  m22 := a.m20 * b.m02 + a.m21 * b.m12 + a.m22 * b.m22 + a.m23 * b.m32
  m23 := a.m20 * b.m03 + a.m21 * b.m13 + a.m22 * b.m23 + a.m23 * b.m33
  m30 := a.m30 * b.m00 + a.m31 * b.m10 + a.m32 * b.m20 + a.m33 * b.m30
  m31 := a.m30 * b.m01 + a.m31 * b.m11 + a.m32 * b.m21 + a.m33 * b.m31
  m32 := a.m30 * b.m02 + a.m31 * b.m12 + a.m32 * b.m22 + a.m33 * b.m32
  m33 := a.m30 * b.m03 + a.m31 * b.m13 + a.m32 * b.m23 + a.m33 * b.m33

/-- `np.matmul` of a 4x4 matrix with a homogeneous column vector. -/
def mulVec (a : Mat4) (v : Vec4) : Vec4 where
  x := a.m00 * v.x + a.m01 * v.y + a.m02 * v.z + a.m03 * v.w
  y := a.m10 * v.x + a.m11 * v.y + a.m12 * v.z + a.m13 * v.w
  z := a.m20 * v.x + a.m21 * v.y + a.m22 * v.z + a.m23 * v.w
  w := a.m30 * v.x + a.m31 * v.y + a.m32 * v.z + a.m33 * v.w

end Mat4

/-- `scale = np.eye(4); scale[0,0] = width; scale[1,1] = height`. -/
def scaleMat (w h : ℚ) : Mat4 :=
  { Mat4.eye with m00 := w, m11 := h }

/-- `to_world = np.eye(4); to_world[0:3,0] = east_vec; to_world[0:3,1] =
north_vec; to_world[0:3,2] = unit_normal`. -/
def toWorldMat (east_vec north_vec unit_normal : Vec3) : Mat4 :=
  { Mat4.eye with
    m00 := east_vec.x, m10 := east_vec.y, m20 := east_vec.z,
    m01 := north_vec.x, m11 := north_vec.y, m21 := north_vec.z,
    m02 := unit_normal.x, m12 := unit_normal.y, m22 := unit_normal.z }

/-- `translate = np.eye(4); translate[0:3,3] = c`. -/
def translateMat (c : Vec3) : Mat4 :=
  { Mat4.eye with m03 := c.x, m13 := c.y, m23 := c.z }

/-- The dispatch tag for `type(self.data_source)` as used by
`BasePlane._set_plane` and `PlaneData.add_data`. -/
inductive SourceKind
  | axisSlice
  | cuttingPlane
  | projection
  | unspecified
deriving DecidableEq, Repr

/-- The errors raised by the modelled code: the `ValueError` of
`BasePlane._set_plane` (plane not normal to an axis) and the `ValueError` of
`PlaneData.add_data` (unexpected `data_source` type).  The code raises no
other error; in particular it has no dedicated degenerate-normal error. -/
inductive PlaneError
  | nonAxisAligned
  | unsupportedSourceKind
deriving DecidableEq, Repr

/-- The inputs `BasePlane._set_plane` reads: the traits `normal`, `center`,
`width`, `height`, the instance attributes `east_vec` / `north_vec`
(`none` models the Python sentinel `None`), and the dispatch tag of
`type(self.data_source)`. -/
structure PlaneSpec where
  normal : Vec3
  center : Vec3
  width : ℚ
  height : ℚ
  east_vec : Option Vec3
  north_vec : Option Vec3
  sourceKind : SourceKind
deriving DecidableEq, Repr

namespace BasePlane

/-- The basis-resolution step of `BasePlane._set_plane` (lines 39-55):
`unit_normal = normal / norm(normal)`, then either take the caller-supplied
`east_vec` / `north_vec` or derive them from which axis the unit normal lies
on.  When `‖normal‖ = 0` the source's division produces IEEE NaN components
and `nan == 0` is `False`, so every axis test fails; over `ℚ` (where
`x / 0 = 0`) that behaviour is modelled by the explicit zero-norm disjunct
leading to the same `ValueError` branch. -/
def resolveBasis (spec : PlaneSpec) : Except PlaneError (Vec3 × Vec3 × Vec3) :=
  let unit_normal := spec.normal.divScalar (norm3 spec.normal)
  match spec.east_vec, spec.north_vec with
  | some e, some n => .ok (e, n, unit_normal)
  | _, _ =>
    if spec.normal.normSq = 0 then .error .nonAxisAligned
    else if unit_normal.x = 0 ∧ unit_normal.y = 0 then
      .ok (⟨1, 0, 0⟩, ⟨0, 1, 0⟩, unit_normal)
    else if unit_normal.y = 0 ∧ unit_normal.z = 0 then
      .ok (⟨0, 1, 0⟩, ⟨0, 0, 1⟩, unit_normal)
    else if unit_normal.x = 0 ∧ unit_normal.z = 0 then
      .ok (⟨1, 0, 0⟩, ⟨0, 0, 1⟩, unit_normal)
    else .error .nonAxisAligned

/-- `BasePlane._set_plane`: resolve the basis, build
`to_worldview = translate @ (to_world @ scale)`, and for a cutting-plane
data source prepend the extra translation `center - true_center` where
`true_center = to_worldview @ (0.5, 0.5, 0, 1)`. -/
def set_plane (spec : PlaneSpec) : Except PlaneError Mat4 :=
  match resolveBasis spec with
  | .error err => .error err
  | .ok (east_vec, north_vec, unit_normal) =>
    let scale := scaleMat spec.width spec.height
    let to_world := toWorldMat east_vec north_vec unit_normal
    let translate := translateMat spec.center
    let to_worldview := translate.mul (to_world.mul scale)
    if spec.sourceKind = .cuttingPlane then
      let true_center := to_worldview.mulVec ⟨1/2, 1/2, 0, 1⟩
      let extra_translate := translateMat
        ⟨spec.center.x - true_center.x,
         spec.center.y - true_center.y,
         spec.center.z - true_center.z⟩
      .ok (extra_translate.mul to_worldview)
    else
      .ok to_worldview

end BasePlane

/-- The relevant content of `self.data_source` in `PlaneData.add_data`:
the dispatch on `type(self.data_source)` together with the accessors each
branch reads (`axis` and `coord` for a slice, the orienter vectors and
`center` for a cutting plane, `axis` for a projection).  `other` stands for
any type that is none of `YTSlice`, `YTCuttingPlane`, `YTProj`. -/
inductive DataSource
  | ytSlice (axis : Fin 3) (coord : ℚ)
  | ytCuttingPlane (normal_vector north_vector center : Vec3)
  | ytProj (axis : Fin 3)
  | other
deriving DecidableEq, Repr

/-- The `SourceKind` tag of a `DataSource`, i.e. what
`type(self.data_source)` dispatches to in `BasePlane._set_plane`. -/
def DataSource.kind : DataSource → SourceKind
  | .ytSlice _ _ => .axisSlice
  | .ytCuttingPlane _ _ _ => .cuttingPlane
  | .ytProj _ => .projection
  | .other => .unspecified

/-- `np.zeros((3,)); v[axis] = c`. -/
def axisVec (axis : Fin 3) (c : ℚ) : Vec3 :=
  match axis with
  | 0 => ⟨c, 0, 0⟩
  | 1 => ⟨0, c, 0⟩
  | 2 => ⟨0, 0, c⟩

/-- The instance attributes of a `PlaneData` object that
`PlaneData.add_data` assigns, each `none` until assigned (matching the
class-level `None` / unset-trait defaults).  The FRB image assigned to
`self.data` comes from the external data backend (`to_frb`), which is out of
scope; only whether the attribute has been assigned is modelled. -/
structure PlaneDataState where
  data : Option Unit
  normal : Option Vec3
  center : Option Vec3
  width : Option ℚ
  height : Option ℚ
  east_vec : Option Vec3
  north_vec : Option Vec3
deriving DecidableEq, Repr

/-- A `PlaneData` object before any `add_data` call: nothing assigned. -/
def PlaneDataState.fresh : PlaneDataState :=
  ⟨none, none, none, none, none, none, none⟩

namespace PlaneData

/-- `PlaneData.add_data(field, width, frb_dims, translate)` as a state
transformer over the instance attributes, paired with its outcome: the
`to_worldview` matrix on success, the raised error otherwise.  It mirrors
the source line by line: `self.data` is assigned from the FRB *before* the
dispatch on `type(self.data_source)`; the cutting-plane branch assigns
`self.north_vec` (normalized), normalizes `normal`, and assigns
`self.east_vec = np.cross(normal, self.north_vec)`; the unsupported branch
raises with the state mutated so far; otherwise `center` is nudged by
`translate * normal` when `translate != 0`, the traits `center`, `normal`,
`width`, `height` are assigned (`height = width`), and
`super().add_data()` runs `BasePlane._set_plane` on the resulting
attributes. -/
def add_data (st : PlaneDataState) (src : DataSource) (width : ℚ)
    (translate : ℚ) : PlaneDataState × Except PlaneError Mat4 :=
  let st1 := { st with data := some () }
  match src with
  | .other => (st1, .error .unsupportedSourceKind)
  | .ytSlice axis coord =>
    let normal := axisVec axis 1
    let center := axisVec axis coord
    add_data_common st1 normal center width translate .axisSlice
  | .ytCuttingPlane normal_vector north_vector source_center =>
    let north_vec := north_vector.divScalar (norm3 north_vector)
    let normal := normal_vector.divScalar (norm3 normal_vector)
    let east_vec := normal.cross north_vec
    let st2 := { st1 with north_vec := some north_vec, east_vec := some east_vec }
    add_data_common st2 normal source_center width translate .cuttingPlane
  | .ytProj axis =>
    let normal := axisVec axis 1
    let center := axisVec axis 1
    add_data_common st1 normal center width translate .projection
where
  /-- The shared tail of the supported branches: the `translate` nudge, the
  trait assignments, and the `super().add_data()` call into
  `BasePlane._set_plane`. -/
  add_data_common (st : PlaneDataState) (normal center : Vec3) (width : ℚ)
      (translate : ℚ) (kind : SourceKind) :
      PlaneDataState × Except PlaneError Mat4 :=
    let center := if translate ≠ 0 then center.add (Vec3.smul translate normal)
      else center
    let st2 := { st with
      center := some center, normal := some normal,
      width := some width, height := some width }
    let spec : PlaneSpec :=
      ⟨normal, center, width, width, st2.east_vec, st2.north_vec, kind⟩
    (st2, BasePlane.set_plane spec)

end PlaneData

/-- Mutual orthonormality of a basis triple, stated with exact rational
norm squares. -/
def orthonormalTriple (e n un : Vec3) : Prop :=
  e.normSq = 1 ∧ n.normSq = 1 ∧ un.normSq = 1 ∧
  e.dot n = 0 ∧ e.dot un = 0 ∧ n.dot un = 0

/-! ## Concrete instances used by witnesses and counterexamples -/

/-- A cutting-plane spec (spec.md §8 scenario): normal `(1,0,0)`,
north `(0,0,1)`, east `(0,-1,0) = normal × north`, reported center
`(3,3,3)`, width = height = 2. -/
def cwSpec : PlaneSpec :=
  ⟨⟨1, 0, 0⟩, ⟨3, 3, 3⟩, 2, 2, some ⟨0, -1, 0⟩, some ⟨0, 0, 1⟩, .cuttingPlane⟩

/-- The uncorrected `translate @ (to_world @ scale)` matrix of `cwSpec`. -/
def cwMuncorrected : Mat4 :=
  ⟨0, 0, 1, 3,
   -2, 0, 0, 3,
   0, 2, 0, 3,
   0, 0, 0, 1⟩

/-- The corrected `to_worldview` matrix of `cwSpec`. -/
def cwM : Mat4 :=
  ⟨0, 0, 1, 3,
   -2, 0, 0, 4,
   0, 2, 0, 2,
   0, 0, 0, 1⟩

/-- The axis-slice spec of the spec.md concrete scenario: normal `(0,0,1)`,
center `(0,0,5)`, width = height = 2, no explicit basis. -/
def axSpec : PlaneSpec :=
  ⟨⟨0, 0, 1⟩, ⟨0, 0, 5⟩, 2, 2, none, none, .axisSlice⟩

/-- The `to_worldview` matrix of `axSpec`. -/
def axM : Mat4 :=
  ⟨2, 0, 0, 0,
   0, 2, 0, 0,
   0, 0, 1, 5,
   0, 0, 0, 1⟩

/-- A spec with an exactly zero normal but an explicit basis. -/
def zSpec : PlaneSpec :=
  ⟨⟨0, 0, 0⟩, ⟨0, 0, 0⟩, 1, 1, some ⟨1, 0, 0⟩, some ⟨0, 1, 0⟩, .unspecified⟩

/-- A spec with a non-axis-aligned normal `(3,4,0)` (unit normal
`(3/5, 4/5, 0)`) and no explicit basis. -/
def c4Spec : PlaneSpec :=
  ⟨⟨3, 4, 0⟩, ⟨0, 0, 0⟩, 1, 1, none, none, .unspecified⟩

/-- A spec with normal `(0,0,3)` (axis-aligned, not unit length) and no
explicit basis. -/
def c5Spec : PlaneSpec :=
  ⟨⟨0, 0, 3⟩, ⟨0, 0, 0⟩, 1, 1, none, none, .unspecified⟩

/-! ## Helper lemmas -/

lemma Vec3.normSq_nonneg (v : Vec3) : 0 ≤ v.normSq := by
  have hx := mul_self_nonneg v.x
  have hy := mul_self_nonneg v.y
  have hz := mul_self_nonneg v.z
  unfold Vec3.normSq
  linarith

lemma Vec3.normSq_eq_zero_iff (v : Vec3) : v.normSq = 0 ↔ v = ⟨0, 0, 0⟩ := by
  unfold Vec3.normSq
  constructor
  · intro h
    have hx := mul_self_nonneg v.x
    have hy := mul_self_nonneg v.y
    have hz := mul_self_nonneg v.z
    have hx0 : v.x * v.x = 0 := le_antisymm (by linarith) hx
    have hy0 : v.y * v.y = 0 := le_antisymm (by linarith) hy
    have hz0 : v.z * v.z = 0 := le_antisymm (by linarith) hz
    cases v
    simp only [Vec3.mk.injEq]
    exact ⟨by nlinarith, by nlinarith, by nlinarith⟩
  · intro h
    rw [h]
    norm_num

/-- When the norm square is the square of a nonnegative rational,
`norm3` computes it exactly. -/
lemma norm3_eq (v : Vec3) (s : ℚ) (h0 : 0 ≤ s) (h : s * s = v.normSq) :
    norm3 v = s := by
  rw [norm3, ← h, Rat.sqrt_eq, abs_of_nonneg h0]

lemma norm3_eq_zero_iff (v : Vec3) : norm3 v = 0 ↔ v.normSq = 0 := by
  constructor
  · intro h
    by_contra hne
    have hpos : 0 < v.normSq := lt_of_le_of_ne (Vec3.normSq_nonneg v) (Ne.symm hne)
    have hnum : 0 < v.normSq.num := Rat.num_pos.mpr hpos
    have hden : (v.normSq).den ≠ 0 := (v.normSq).den_nz
    have hsden : Nat.sqrt (v.normSq).den ≠ 0 := by
      intro h0
      exact hden (Nat.sqrt_eq_zero.mp h0)
    rw [norm3, Rat.sqrt, Rat.mkRat_eq_zero hsden] at h
    rw [Int.sqrt] at h
    have : Int.toNat (v.normSq).num ≠ 0 := by
      intro h0
      omega
    simp only [Int.natCast_eq_zero] at h
    exact this (Nat.sqrt_eq_zero.mp h)
  · intro h
    rw [norm3, h]
    simp

/-- Applying `translate @ (to_world @ scale)` to the homogeneous texture
point `(u, v, 0, 1)`: the image is `center + u*width*east + v*height*north`
with homogeneous coordinate 1. -/
lemma tws_mulVec (c e n un : Vec3) (w h u v : ℚ) :
    ((translateMat c).mul ((toWorldMat e n un).mul (scaleMat w h))).mulVec
        ⟨u, v, 0, 1⟩ =
      ⟨c.x + u * w * e.x + v * h * n.x,
       c.y + u * w * e.y + v * h * n.y,
       c.z + u * w * e.z + v * h * n.z, 1⟩ := by
  simp only [Mat4.mul, Mat4.mulVec, translateMat, toWorldMat, scaleMat, Mat4.eye]
  rw [Vec4.mk.injEq]
  refine ⟨by ring, by ring, by ring, by ring⟩

/-- The bottom row of `translate @ (to_world @ scale)` is `(0, 0, 0, 1)`. -/
lemma tws_row3 (c e n un : Vec3) (w h : ℚ) :
    ((translateMat c).mul ((toWorldMat e n un).mul (scaleMat w h))).m30 = 0 ∧
    ((translateMat c).mul ((toWorldMat e n un).mul (scaleMat w h))).m31 = 0 ∧
    ((translateMat c).mul ((toWorldMat e n un).mul (scaleMat w h))).m32 = 0 ∧
    ((translateMat c).mul ((toWorldMat e n un).mul (scaleMat w h))).m33 = 1 := by
  simp only [Mat4.mul, translateMat, toWorldMat, scaleMat, Mat4.eye]
  refine ⟨by ring, by ring, by ring, by ring⟩

/-- Prepending a translation adds the offset scaled by the homogeneous
coordinate of the image, and keeps the bottom row of the image vector. -/
lemma translate_mul_mulVec (d : Vec3) (M : Mat4) (v : Vec4) :
    ((translateMat d).mul M).mulVec v =
      ⟨(M.mulVec v).x + d.x * (M.mulVec v).w,
       (M.mulVec v).y + d.y * (M.mulVec v).w,
       (M.mulVec v).z + d.z * (M.mulVec v).w,
       (M.mulVec v).w⟩ := by
  simp only [Mat4.mul, Mat4.mulVec, translateMat, Mat4.eye]
  rw [Vec4.mk.injEq]
  refine ⟨by ring, by ring, by ring, by ring⟩

/-- Prepending a translation preserves the bottom row of the matrix. -/
lemma translate_mul_row3 (d : Vec3) (M : Mat4) :
    ((translateMat d).mul M).m30 = M.m30 ∧
    ((translateMat d).mul M).m31 = M.m31 ∧
    ((translateMat d).mul M).m32 = M.m32 ∧
    ((translateMat d).mul M).m33 = M.m33 := by
  simp only [Mat4.mul, translateMat, Mat4.eye]
  refine ⟨by ring, by ring, by ring, by ring⟩

/-- The homogeneous coordinate of `M @ (u, v, 0, 1)` in terms of the bottom
row of `M`. -/
lemma mulVec_w (M : Mat4) (u v : ℚ) (h0 : M.m30 = 0) (h1 : M.m31 = 0)
    (h2 : M.m32 = 0) (h3 : M.m33 = 1) :
    (M.mulVec ⟨u, v, 0, 1⟩).w = 1 := by
  simp only [Mat4.mulVec, h0, h1, h2, h3]
  ring

lemma Vec3.normSq_divScalar (v : Vec3) (s : ℚ) (hs : s ≠ 0) :
    (v.divScalar s).normSq = v.normSq / (s * s) := by
  unfold Vec3.normSq Vec3.divScalar
  field_simp

lemma Vec3.dot_divScalar (v u : Vec3) (s r : ℚ) (hs : s ≠ 0) (hr : r ≠ 0) :
    (v.divScalar s).dot (u.divScalar r) = v.dot u / (s * r) := by
  unfold Vec3.dot Vec3.divScalar
  field_simp

/-- Lagrange: the norm square of a cross product. -/
lemma Vec3.normSq_cross (a b : Vec3) :
    (a.cross b).normSq = a.normSq * b.normSq - a.dot b * a.dot b := by
  unfold Vec3.normSq Vec3.cross Vec3.dot
  ring

lemma Vec3.cross_dot_left (a b : Vec3) : (a.cross b).dot a = 0 := by
  unfold Vec3.cross Vec3.dot
  ring

lemma Vec3.cross_dot_right (a b : Vec3) : (a.cross b).dot b = 0 := by
  unfold Vec3.cross Vec3.dot
  ring

/-- For `b` a unit vector orthogonal to `a`: `(a × b) × b = -a`. -/
lemma Vec3.cross_cross_right (a b : Vec3) (h : a.dot b = 0)
    (hb : b.normSq = 1) : (a.cross b).cross b = a.neg := by
  simp only [Vec3.dot] at h
  simp only [Vec3.normSq] at hb
  unfold Vec3.cross Vec3.neg
  rw [Vec3.mk.injEq]
  refine ⟨?_, ?_, ?_⟩
  · linear_combination b.x * h - a.x * hb
  · linear_combination b.y * h - a.y * hb
  · linear_combination b.z * h - a.z * hb

lemma except_isOk_ne_error {ε α : Type} (x : Except ε α) (h : x.isOk = true)
    (e : ε) : x ≠ .error e := by
  intro hc
  subst hc
  simp [Except.isOk, Except.toBool] at h

/-- The basis resolution succeeds on any spec whose normal is a coordinate
axis vector, whatever the basis attributes hold. -/
lemma resolveBasis_isOk_of_axis (spec : PlaneSpec) (axis : Fin 3)
    (hnorm : spec.normal = axisVec axis 1) :
    (BasePlane.resolveBasis spec).isOk = true := by
  unfold BasePlane.resolveBasis
  cases he : spec.east_vec with
  | some e =>
    cases hn : spec.north_vec with
    | some n => simp [Except.isOk, Except.toBool]
    | none =>
      fin_cases axis <;>
        simp_all [axisVec, Vec3.normSq, Vec3.divScalar, norm3, Rat.sqrt,
          Except.isOk, Except.toBool]
  | none =>
    fin_cases axis <;>
      simp_all [axisVec, Vec3.normSq, Vec3.divScalar, norm3, Rat.sqrt,
        Except.isOk, Except.toBool]

lemma except_isOk_exists {ε α : Type} (x : Except ε α) (h : x.isOk = true) :
    ∃ a, x = .ok a := by
  cases x with
  | ok a => exact ⟨a, rfl⟩
  | error e => simp [Except.isOk, Except.toBool] at h

/-- The basis resolution succeeds whenever both basis attributes are
assigned. -/
lemma resolveBasis_isOk_of_basis (spec : PlaneSpec) (e n : Vec3)
    (he : spec.east_vec = some e) (hn : spec.north_vec = some n) :
    (BasePlane.resolveBasis spec).isOk = true := by
  unfold BasePlane.resolveBasis
  simp only [he, hn]
  simp [Except.isOk, Except.toBool]

/-- If basis resolution succeeds, `BasePlane._set_plane` succeeds. -/
lemma set_plane_isOk (spec : PlaneSpec)
    (h : (BasePlane.resolveBasis spec).isOk = true) :
    (BasePlane.set_plane spec).isOk = true := by
  obtain ⟨⟨e, n, un⟩, hres⟩ := except_isOk_exists _ h
  unfold BasePlane.set_plane
  rw [hres]
  by_cases hk : spec.sourceKind = SourceKind.cuttingPlane <;>
    simp [Except.isOk, Except.toBool, hk]

/-- `BasePlane.set_plane` on a spec whose source kind is not a cutting
plane: the result is exactly `translate @ (to_world @ scale)` for the
resolved basis. -/
lemma set_plane_not_cutting (spec : PlaneSpec) (e n un : Vec3)
    (hres : BasePlane.resolveBasis spec = .ok (e, n, un))
    (hk : spec.sourceKind ≠ .cuttingPlane) :
    BasePlane.set_plane spec =
      .ok ((translateMat spec.center).mul
        ((toWorldMat e n un).mul (scaleMat spec.width spec.height))) := by
  unfold BasePlane.set_plane
  rw [hres]
  simp [hk]

/-- `BasePlane.set_plane` on a cutting-plane spec: the result is the
uncorrected matrix with the extra translation `center - true_center`
prepended. -/
lemma set_plane_cutting (spec : PlaneSpec) (e n un : Vec3)
    (hres : BasePlane.resolveBasis spec = .ok (e, n, un))
    (hk : spec.sourceKind = .cuttingPlane) :
    BasePlane.set_plane spec =
      .ok ((translateMat
        ⟨spec.center.x - (((translateMat spec.center).mul
            ((toWorldMat e n un).mul (scaleMat spec.width spec.height))).mulVec
            ⟨1/2, 1/2, 0, 1⟩).x,
         spec.center.y - (((translateMat spec.center).mul
            ((toWorldMat e n un).mul (scaleMat spec.width spec.height))).mulVec
            ⟨1/2, 1/2, 0, 1⟩).y,
         spec.center.z - (((translateMat spec.center).mul
            ((toWorldMat e n un).mul (scaleMat spec.width spec.height))).mulVec
            ⟨1/2, 1/2, 0, 1⟩).z⟩).mul
        ((translateMat spec.center).mul
          ((toWorldMat e n un).mul (scaleMat spec.width spec.height)))) := by
  unfold BasePlane.set_plane
  rw [hres]
  simp [hk]

/-! ## Evaluation lemmas for the concrete instances -/

lemma norm3_e1 : norm3 ⟨1, 0, 0⟩ = 1 :=
  norm3_eq _ 1 (by norm_num) (by unfold Vec3.normSq; norm_num)

lemma norm3_e3 : norm3 ⟨0, 0, 1⟩ = 1 :=
  norm3_eq _ 1 (by norm_num) (by unfold Vec3.normSq; norm_num)

lemma norm3_zeroVec : norm3 ⟨0, 0, 0⟩ = 0 :=
  norm3_eq _ 0 le_rfl (by unfold Vec3.normSq; norm_num)

lemma norm3_c4 : norm3 ⟨3, 4, 0⟩ = 5 :=
  norm3_eq _ 5 (by norm_num) (by unfold Vec3.normSq; norm_num)

lemma resolveBasis_axSpec :
    BasePlane.resolveBasis axSpec = .ok (⟨1, 0, 0⟩, ⟨0, 1, 0⟩, ⟨0, 0, 1⟩) := by
  unfold BasePlane.resolveBasis axSpec
  simp [norm3_e3, Vec3.divScalar, Vec3.normSq]

lemma set_plane_axSpec : BasePlane.set_plane axSpec = .ok axM := by
  rw [set_plane_not_cutting axSpec ⟨1, 0, 0⟩ ⟨0, 1, 0⟩ ⟨0, 0, 1⟩
    resolveBasis_axSpec (by simp [axSpec])]
  unfold axSpec axM translateMat toWorldMat scaleMat Mat4.eye Mat4.mul
  norm_num

lemma resolveBasis_cwSpec :
    BasePlane.resolveBasis cwSpec = .ok (⟨0, -1, 0⟩, ⟨0, 0, 1⟩, ⟨1, 0, 0⟩) := by
  unfold BasePlane.resolveBasis cwSpec
  simp [norm3_e1, Vec3.divScalar]

lemma cw_uncorrected_eval :
    (translateMat cwSpec.center).mul ((toWorldMat ⟨0, -1, 0⟩ ⟨0, 0, 1⟩
      ⟨1, 0, 0⟩).mul (scaleMat cwSpec.width cwSpec.height)) = cwMuncorrected := by
  unfold cwSpec cwMuncorrected translateMat toWorldMat scaleMat Mat4.eye Mat4.mul
  norm_num

lemma set_plane_cwSpec : BasePlane.set_plane cwSpec = .ok cwM := by
  rw [set_plane_cutting cwSpec ⟨0, -1, 0⟩ ⟨0, 0, 1⟩ ⟨1, 0, 0⟩
    resolveBasis_cwSpec rfl]
  rw [cw_uncorrected_eval]
  unfold cwSpec cwMuncorrected cwM translateMat Mat4.eye Mat4.mul Mat4.mulVec
  norm_num

/-! ## Claims -/

/-- Claim C1: for every CuttingPlane spec with a valid (explicit) basis, the
transform built by `_set_plane` maps the homogeneous texture-space centroid
(0.5, 0.5, 0, 1) to a world point equal to the supplied center (exactly, so
in particular within 1e-5), because the step-6 correction prepends the
translation `center - true_center`. -/
theorem C1_cutting_centroid_is_center (spec : PlaneSpec) (e n : Vec3)
    (M : Mat4) (hk : spec.sourceKind = .cuttingPlane)
    (he : spec.east_vec = some e) (hn : spec.north_vec = some n)
    (hM : BasePlane.set_plane spec = .ok M) :
    M.mulVec ⟨1/2, 1/2, 0, 1⟩ =
      ⟨spec.center.x, spec.center.y, spec.center.z, 1⟩ := by
  have hres : BasePlane.resolveBasis spec =
      .ok (e, n, spec.normal.divScalar (norm3 spec.normal)) := by
    unfold BasePlane.resolveBasis
    rw [he, hn]
  rw [set_plane_cutting spec e n _ hres hk] at hM
  injection hM with hMeq
  subst hMeq
  rw [translate_mul_mulVec]
  simp only [tws_mulVec, Vec4.mk.injEq]
  refine ⟨by ring_nf, by ring_nf, by ring_nf, by ring_nf⟩

/-- Witness for C1 at the concrete spec `cwSpec`, where the uncorrected
centroid `(3, 2, 4)` differs from the supplied center `(3, 3, 3)` by the
nonzero offset `(0, -1, 1)`. -/
theorem C1_cutting_centroid_is_center_witness :
    cwSpec.sourceKind = SourceKind.cuttingPlane ∧
    cwSpec.east_vec = some ⟨0, -1, 0⟩ ∧
    cwSpec.north_vec = some ⟨0, 0, 1⟩ ∧
    BasePlane.set_plane cwSpec = .ok cwM ∧
    cwM.mulVec ⟨1/2, 1/2, 0, 1⟩ =
      ⟨cwSpec.center.x, cwSpec.center.y, cwSpec.center.z, 1⟩ ∧
    cwMuncorrected.mulVec ⟨1/2, 1/2, 0, 1⟩ ≠
      ⟨cwSpec.center.x, cwSpec.center.y, cwSpec.center.z, 1⟩ :=
  ⟨rfl, rfl, rfl, set_plane_cwSpec,
   C1_cutting_centroid_is_center cwSpec ⟨0, -1, 0⟩ ⟨0, 0, 1⟩ cwM rfl rfl rfl
     set_plane_cwSpec,
   by
     unfold cwMuncorrected cwSpec Mat4.mulVec
     simp only [Vec4.mk.injEq]
     norm_num⟩

/-- Claim C2 is false on the code: for the spec.md concrete axis-slice
scenario (normal `(0,0,1)`, center `(0,0,5)`, width = height = 2) the
texture centroid maps to `(1, 1, 5)`, not to the supplied center
`(0, 0, 5)` (no correction is applied outside the cutting-plane branch, and
the uncorrected transform sends the texture origin, not the centroid, to
`center`). -/
theorem C2_centroid_counterexample :
    BasePlane.set_plane axSpec = .ok axM ∧
    axM.mulVec ⟨1/2, 1/2, 0, 1⟩ = ⟨1, 1, 5, 1⟩ ∧
    (⟨1, 1, 5, 1⟩ : Vec4) ≠
      ⟨axSpec.center.x, axSpec.center.y, axSpec.center.z, 1⟩ :=
  ⟨set_plane_axSpec,
   by unfold axM Mat4.mulVec; simp only [Vec4.mk.injEq]; norm_num,
   by unfold axSpec; simp only [Vec4.mk.injEq]; norm_num⟩

/-- Claim C2 (amended): for every AxisSlice or Projection spec (any spec
outside the cutting-plane branch) the transform maps the texture-space
centroid (0.5, 0.5, 0, 1) to `center + (width/2)·east + (height/2)·north`,
not to `center`; in the concrete scenario normal=(0,0,1), center=(0,0,5),
width=height=2 the four corners u,v ∈ {0,1} map to the 2×2 square
{(0,0,5), (2,0,5), (0,2,5), (2,2,5)}, which lies in the plane z=5 and is
centered at (1,1,5), not at the supplied center. -/
theorem C2_centroid_amended :
    (∀ (spec : PlaneSpec) (e n un : Vec3) (M : Mat4),
      BasePlane.resolveBasis spec = .ok (e, n, un) →
      spec.sourceKind ≠ .cuttingPlane →
      BasePlane.set_plane spec = .ok M →
      M.mulVec ⟨1/2, 1/2, 0, 1⟩ =
        ⟨spec.center.x + spec.width / 2 * e.x + spec.height / 2 * n.x,
         spec.center.y + spec.width / 2 * e.y + spec.height / 2 * n.y,
         spec.center.z + spec.width / 2 * e.z + spec.height / 2 * n.z, 1⟩) ∧
    axM.mulVec ⟨0, 0, 0, 1⟩ = ⟨0, 0, 5, 1⟩ ∧
    axM.mulVec ⟨1, 0, 0, 1⟩ = ⟨2, 0, 5, 1⟩ ∧
    axM.mulVec ⟨0, 1, 0, 1⟩ = ⟨0, 2, 5, 1⟩ ∧
    axM.mulVec ⟨1, 1, 0, 1⟩ = ⟨2, 2, 5, 1⟩ := by
  refine ⟨?_, ?_, ?_, ?_, ?_⟩
  · intro spec e n un M hres hk hM
    rw [set_plane_not_cutting spec e n un hres hk] at hM
    injection hM with hMeq
    subst hMeq
    simp only [tws_mulVec, Vec4.mk.injEq]
    refine ⟨by ring_nf, by ring_nf, by ring_nf, by ring_nf⟩
  all_goals unfold axM Mat4.mulVec; simp only [Vec4.mk.injEq]; norm_num

/-- Witness for the universally quantified part of the amended C2 at the
concrete scenario spec `axSpec`. -/
theorem C2_centroid_amended_witness :
    BasePlane.resolveBasis axSpec = .ok (⟨1, 0, 0⟩, ⟨0, 1, 0⟩, ⟨0, 0, 1⟩) ∧
    axSpec.sourceKind ≠ SourceKind.cuttingPlane ∧
    BasePlane.set_plane axSpec = .ok axM ∧
    axM.mulVec ⟨1/2, 1/2, 0, 1⟩ =
      ⟨axSpec.center.x + axSpec.width / 2 * (Vec3.mk 1 0 0).x
         + axSpec.height / 2 * (Vec3.mk 0 1 0).x,
       axSpec.center.y + axSpec.width / 2 * (Vec3.mk 1 0 0).y
         + axSpec.height / 2 * (Vec3.mk 0 1 0).y,
       axSpec.center.z + axSpec.width / 2 * (Vec3.mk 1 0 0).z
         + axSpec.height / 2 * (Vec3.mk 0 1 0).z, 1⟩ :=
  ⟨resolveBasis_axSpec, by simp [axSpec], set_plane_axSpec,
   C2_centroid_amended.1 axSpec ⟨1, 0, 0⟩ ⟨0, 1, 0⟩ ⟨0, 0, 1⟩ axM
     resolveBasis_axSpec (by simp [axSpec]) set_plane_axSpec⟩

/-- Claim C3 is false on the code: the code has no degenerate-normal error
at all.  A spec whose normal has norm exactly zero but which supplies an
explicit basis produces a result instead of failing (numpy emits only a
runtime warning for `0.0 / 0.0` and continues with NaN entries; no
exception is raised). -/
theorem C3_degenerate_normal_counterexample :
    zSpec.normal.normSq = 0 ∧ (BasePlane.set_plane zSpec).isOk = true :=
  ⟨by unfold zSpec Vec3.normSq; norm_num,
   set_plane_isOk zSpec (by
     unfold BasePlane.resolveBasis zSpec
     simp [Except.isOk, Except.toBool])⟩

/-- Claim C3 (amended): the basis-resolution step normalizes the supplied
normal to `normal / ‖normal‖`, but there is no `DegenerateNormalError`: for
a normal of norm zero, when no explicit basis is supplied the NaN unit
normal fails every axis test and the non-axis-aligned `ValueError` is
raised instead, and when an explicit basis is supplied the build succeeds
(producing a NaN-filled transform in the source). -/
theorem C3_normalization_amended :
    (∀ (spec : PlaneSpec) (e n un : Vec3),
      BasePlane.resolveBasis spec = .ok (e, n, un) →
      un = spec.normal.divScalar (norm3 spec.normal)) ∧
    (∀ spec : PlaneSpec, norm3 spec.normal = 0 →
      spec.east_vec = none ∨ spec.north_vec = none →
      BasePlane.resolveBasis spec = .error .nonAxisAligned) ∧
    (∀ (spec : PlaneSpec) (e n : Vec3), norm3 spec.normal = 0 →
      spec.east_vec = some e → spec.north_vec = some n →
      (BasePlane.set_plane spec).isOk = true) := by
  refine ⟨?_, ?_, ?_⟩
  · intro spec e n un h
    unfold BasePlane.resolveBasis at h
    cases he : spec.east_vec <;> cases hn : spec.north_vec <;>
      simp only [he, hn] at h
    all_goals repeat' split at h
    all_goals simp_all [Except.ok.injEq, Prod.mk.injEq]
  · intro spec h0 hor
    have hsq : spec.normal.normSq = 0 := (norm3_eq_zero_iff _).mp h0
    unfold BasePlane.resolveBasis
    cases he : spec.east_vec <;> cases hn : spec.north_vec
    · simp only [he, hn]; rw [if_pos hsq]
    · simp only [he, hn]; rw [if_pos hsq]
    · simp only [he, hn]; rw [if_pos hsq]
    · rw [he, hn] at hor; simp at hor
  · intro spec e n h0 he hn
    apply set_plane_isOk
    unfold BasePlane.resolveBasis
    simp only [he, hn]
    simp [Except.isOk, Except.toBool]

/-- Witness for the amended C3: the normalization equation at `axSpec`, the
non-axis-aligned failure on the zero normal with no basis, and the
successful build on the zero normal with an explicit basis. -/
theorem C3_normalization_amended_witness :
    ((⟨0, 0, 1⟩ : Vec3) = axSpec.normal.divScalar (norm3 axSpec.normal)) ∧
    BasePlane.resolveBasis
      (⟨⟨0, 0, 0⟩, ⟨0, 0, 0⟩, 1, 1, none, none, .unspecified⟩ : PlaneSpec) =
        .error .nonAxisAligned ∧
    (BasePlane.set_plane zSpec).isOk = true :=
  ⟨C3_normalization_amended.1 axSpec ⟨1, 0, 0⟩ ⟨0, 1, 0⟩ ⟨0, 0, 1⟩
     resolveBasis_axSpec,
   C3_normalization_amended.2.1 _ norm3_zeroVec (Or.inl rfl),
   C3_normalization_amended.2.2 zSpec ⟨1, 0, 0⟩ ⟨0, 1, 0⟩
     (by show norm3 ⟨0, 0, 0⟩ = 0; exact norm3_zeroVec) rfl rfl⟩

/-- Claim C4: for every spec with no explicit east/north basis whose unit
normal (as computed by the code, `normal / ‖normal‖`) has fewer than two
zero components, `_set_plane` fails with the non-axis-aligned error and
returns no transform. -/
theorem C4_non_axis_aligned_error (spec : PlaneSpec)
    (he : spec.east_vec = none) (hn : spec.north_vec = none)
    (h1 : ¬((spec.normal.divScalar (norm3 spec.normal)).x = 0 ∧
            (spec.normal.divScalar (norm3 spec.normal)).y = 0))
    (h2 : ¬((spec.normal.divScalar (norm3 spec.normal)).y = 0 ∧
            (spec.normal.divScalar (norm3 spec.normal)).z = 0))
    (h3 : ¬((spec.normal.divScalar (norm3 spec.normal)).x = 0 ∧
            (spec.normal.divScalar (norm3 spec.normal)).z = 0)) :
    BasePlane.set_plane spec = .error .nonAxisAligned := by
  have hres : BasePlane.resolveBasis spec = .error .nonAxisAligned := by
    unfold BasePlane.resolveBasis
    simp only [he, hn]
    by_cases hsq : spec.normal.normSq = 0
    · rw [if_pos hsq]
    · rw [if_neg hsq, if_neg h1, if_neg h2, if_neg h3]
  unfold BasePlane.set_plane
  rw [hres]

/-- Witness for C4 at `c4Spec`, whose unit normal `(3/5, 4/5, 0)` is not
axis-aligned. -/
theorem C4_non_axis_aligned_error_witness :
    c4Spec.east_vec = none ∧ c4Spec.north_vec = none ∧
    ¬((c4Spec.normal.divScalar (norm3 c4Spec.normal)).x = 0 ∧
      (c4Spec.normal.divScalar (norm3 c4Spec.normal)).y = 0) ∧
    ¬((c4Spec.normal.divScalar (norm3 c4Spec.normal)).y = 0 ∧
      (c4Spec.normal.divScalar (norm3 c4Spec.normal)).z = 0) ∧
    ¬((c4Spec.normal.divScalar (norm3 c4Spec.normal)).x = 0 ∧
      (c4Spec.normal.divScalar (norm3 c4Spec.normal)).z = 0) ∧
    BasePlane.set_plane c4Spec = .error .nonAxisAligned := by
  have hun : c4Spec.normal.divScalar (norm3 c4Spec.normal) =
      ⟨3/5, 4/5, 0⟩ := by
    show Vec3.divScalar ⟨3, 4, 0⟩ (norm3 ⟨3, 4, 0⟩) = _
    rw [norm3_c4]
    unfold Vec3.divScalar
    norm_num
  have h1 : ¬((c4Spec.normal.divScalar (norm3 c4Spec.normal)).x = 0 ∧
      (c4Spec.normal.divScalar (norm3 c4Spec.normal)).y = 0) := by
    rw [hun]; norm_num
  have h2 : ¬((c4Spec.normal.divScalar (norm3 c4Spec.normal)).y = 0 ∧
      (c4Spec.normal.divScalar (norm3 c4Spec.normal)).z = 0) := by
    rw [hun]; norm_num
  have h3 : ¬((c4Spec.normal.divScalar (norm3 c4Spec.normal)).x = 0 ∧
      (c4Spec.normal.divScalar (norm3 c4Spec.normal)).z = 0) := by
    rw [hun]; norm_num
  exact ⟨rfl, rfl, h1, h2, h3,
    C4_non_axis_aligned_error c4Spec rfl rfl h1 h2 h3⟩

/-- Claim C5: for every spec with no explicit basis whose (nonzero) normal
lies on a coordinate axis, `resolveBasis` returns the documented fixed
(east, north) pair — z-axis: (1,0,0)/(0,1,0); x-axis: (0,1,0)/(0,0,1);
y-axis: (1,0,0)/(0,0,1) — together with the normalized normal, and the
three returned vectors are mutually orthogonal unit vectors. -/
theorem C5_axis_aligned_fixed_basis (spec : PlaneSpec) (c : ℚ) (hc : c ≠ 0)
    (he : spec.east_vec = none) (hn : spec.north_vec = none) :
    (spec.normal = ⟨0, 0, c⟩ →
      BasePlane.resolveBasis spec =
        .ok (⟨1, 0, 0⟩, ⟨0, 1, 0⟩, ⟨0, 0, c / |c|⟩) ∧
      orthonormalTriple ⟨1, 0, 0⟩ ⟨0, 1, 0⟩ ⟨0, 0, c / |c|⟩) ∧
    (spec.normal = ⟨c, 0, 0⟩ →
      BasePlane.resolveBasis spec =
        .ok (⟨0, 1, 0⟩, ⟨0, 0, 1⟩, ⟨c / |c|, 0, 0⟩) ∧
      orthonormalTriple ⟨0, 1, 0⟩ ⟨0, 0, 1⟩ ⟨c / |c|, 0, 0⟩) ∧
    (spec.normal = ⟨0, c, 0⟩ →
      BasePlane.resolveBasis spec =
        .ok (⟨1, 0, 0⟩, ⟨0, 0, 1⟩, ⟨0, c / |c|, 0⟩) ∧
      orthonormalTriple ⟨1, 0, 0⟩ ⟨0, 0, 1⟩ ⟨0, c / |c|, 0⟩) := by
  have habs : |c| ≠ 0 := abs_ne_zero.mpr hc
  have hcc : c / |c| * (c / |c|) = 1 := by
    rw [div_mul_div_comm, abs_mul_abs_self, div_self (mul_ne_zero hc hc)]
  have hdiv : c / |c| ≠ 0 := div_ne_zero hc habs
  refine ⟨?_, ?_, ?_⟩
  · intro hnormal
    have hn3 : norm3 (⟨0, 0, c⟩ : Vec3) = |c| :=
      norm3_eq _ _ (abs_nonneg c)
        (by unfold Vec3.normSq; rw [abs_mul_abs_self]; ring)
    have hun : Vec3.divScalar ⟨0, 0, c⟩ (norm3 ⟨0, 0, c⟩) =
        ⟨0, 0, c / |c|⟩ := by
      rw [hn3]
      unfold Vec3.divScalar
      rw [Vec3.mk.injEq]
      exact ⟨zero_div _, zero_div _, rfl⟩
    have hg : Vec3.normSq (⟨0, 0, c⟩ : Vec3) ≠ 0 := by
      unfold Vec3.normSq
      simp [mul_self_eq_zero, hc]
    constructor
    · unfold BasePlane.resolveBasis
      simp only [he, hn, hnormal, hun]
      rw [if_neg hg, if_pos (by simp)]
    · unfold orthonormalTriple Vec3.normSq Vec3.dot
      refine ⟨by norm_num, by norm_num, by simpa using hcc,
        by norm_num, by norm_num, by norm_num⟩
  · intro hnormal
    have hn3 : norm3 (⟨c, 0, 0⟩ : Vec3) = |c| :=
      norm3_eq _ _ (abs_nonneg c)
        (by unfold Vec3.normSq; rw [abs_mul_abs_self]; ring)
    have hun : Vec3.divScalar ⟨c, 0, 0⟩ (norm3 ⟨c, 0, 0⟩) =
        ⟨c / |c|, 0, 0⟩ := by
      rw [hn3]
      unfold Vec3.divScalar
      rw [Vec3.mk.injEq]
      exact ⟨rfl, zero_div _, zero_div _⟩
    have hg : Vec3.normSq (⟨c, 0, 0⟩ : Vec3) ≠ 0 := by
      unfold Vec3.normSq
      simp [mul_self_eq_zero, hc]
    constructor
    · unfold BasePlane.resolveBasis
      simp only [he, hn, hnormal, hun]
      rw [if_neg hg, if_neg (by simp [hdiv]), if_pos (by simp)]
    · unfold orthonormalTriple Vec3.normSq Vec3.dot
      refine ⟨by norm_num, by norm_num, by simpa using hcc,
        by norm_num, by norm_num, by norm_num⟩
  · intro hnormal
    have hn3 : norm3 (⟨0, c, 0⟩ : Vec3) = |c| :=
      norm3_eq _ _ (abs_nonneg c)
        (by unfold Vec3.normSq; rw [abs_mul_abs_self]; ring)
    have hun : Vec3.divScalar ⟨0, c, 0⟩ (norm3 ⟨0, c, 0⟩) =
        ⟨0, c / |c|, 0⟩ := by
      rw [hn3]
      unfold Vec3.divScalar
      rw [Vec3.mk.injEq]
      exact ⟨zero_div _, rfl, zero_div _⟩
    have hg : Vec3.normSq (⟨0, c, 0⟩ : Vec3) ≠ 0 := by
      unfold Vec3.normSq
      simp [mul_self_eq_zero, hc]
    constructor
    · unfold BasePlane.resolveBasis
      simp only [he, hn, hnormal, hun]
      rw [if_neg hg, if_neg (by simp [hdiv]), if_neg (by simp [hdiv]),
        if_pos (by simp)]
    · unfold orthonormalTriple Vec3.normSq Vec3.dot
      refine ⟨by norm_num, by norm_num, by simpa using hcc,
        by norm_num, by norm_num, by norm_num⟩

/-- Witness for C5 at `c5Spec` (normal `(0, 0, 3)`). -/
theorem C5_axis_aligned_fixed_basis_witness :
    (3 : ℚ) ≠ 0 ∧ c5Spec.east_vec = none ∧ c5Spec.north_vec = none ∧
    c5Spec.normal = ⟨0, 0, 3⟩ ∧
    BasePlane.resolveBasis c5Spec =
      .ok (⟨1, 0, 0⟩, ⟨0, 1, 0⟩, ⟨0, 0, (3 : ℚ) / |(3 : ℚ)|⟩) ∧
    orthonormalTriple ⟨1, 0, 0⟩ ⟨0, 1, 0⟩ ⟨0, 0, (3 : ℚ) / |(3 : ℚ)|⟩ := by
  obtain ⟨hres, hortho⟩ :=
    (C5_axis_aligned_fixed_basis c5Spec 3 (by norm_num) rfl rfl).1 rfl
  exact ⟨by norm_num, rfl, rfl, rfl, hres, hortho⟩

/-- Claim C6: for every spec with a resolved basis, `_set_plane` composes
the transform as `translate @ (to_world @ scale)` (scale first, then
orientation, then translation), and before any cutting-plane correction this
product maps `(u, v, 0, 1)` to `center + u·width·east + v·height·north`. -/
theorem C6_transform_composition (spec : PlaneSpec) (e n un : Vec3)
    (hres : BasePlane.resolveBasis spec = .ok (e, n, un)) :
    (spec.sourceKind ≠ .cuttingPlane →
      BasePlane.set_plane spec = .ok ((translateMat spec.center).mul
        ((toWorldMat e n un).mul (scaleMat spec.width spec.height)))) ∧
    (∀ u v : ℚ,
      ((translateMat spec.center).mul ((toWorldMat e n un).mul
        (scaleMat spec.width spec.height))).mulVec ⟨u, v, 0, 1⟩ =
      ⟨spec.center.x + u * spec.width * e.x + v * spec.height * n.x,
       spec.center.y + u * spec.width * e.y + v * spec.height * n.y,
       spec.center.z + u * spec.width * e.z + v * spec.height * n.z, 1⟩) :=
  ⟨fun hk => set_plane_not_cutting spec e n un hres hk,
   fun u v => tws_mulVec spec.center e n un spec.width spec.height u v⟩

/-- Witness for C6 at `axSpec`, with the pointwise formula instantiated at
the texture corner (1, 1). -/
theorem C6_transform_composition_witness :
    axSpec.sourceKind ≠ SourceKind.cuttingPlane ∧
    BasePlane.resolveBasis axSpec = .ok (⟨1, 0, 0⟩, ⟨0, 1, 0⟩, ⟨0, 0, 1⟩) ∧
    BasePlane.set_plane axSpec = .ok ((translateMat axSpec.center).mul
      ((toWorldMat ⟨1, 0, 0⟩ ⟨0, 1, 0⟩ ⟨0, 0, 1⟩).mul
        (scaleMat axSpec.width axSpec.height))) ∧
    ((translateMat axSpec.center).mul ((toWorldMat ⟨1, 0, 0⟩ ⟨0, 1, 0⟩
        ⟨0, 0, 1⟩).mul (scaleMat axSpec.width axSpec.height))).mulVec
      ⟨1, 1, 0, 1⟩ =
      ⟨axSpec.center.x + 1 * axSpec.width * (Vec3.mk 1 0 0).x
         + 1 * axSpec.height * (Vec3.mk 0 1 0).x,
       axSpec.center.y + 1 * axSpec.width * (Vec3.mk 1 0 0).y
         + 1 * axSpec.height * (Vec3.mk 0 1 0).y,
       axSpec.center.z + 1 * axSpec.width * (Vec3.mk 1 0 0).z
         + 1 * axSpec.height * (Vec3.mk 0 1 0).z, 1⟩ :=
  ⟨by simp [axSpec], resolveBasis_axSpec,
   (C6_transform_composition axSpec ⟨1, 0, 0⟩ ⟨0, 1, 0⟩ ⟨0, 0, 1⟩
     resolveBasis_axSpec).1 (by simp [axSpec]),
   (C6_transform_composition axSpec ⟨1, 0, 0⟩ ⟨0, 1, 0⟩ ⟨0, 0, 1⟩
     resolveBasis_axSpec).2 1 1⟩

/-- Claim C7 is false on the right-handedness part: for the cutting-plane
source with normal `(1,0,0)` and north `(0,0,1)`, the derived east vector is
`(0,-1,0) = normal × north`, and `east × north = (-1,0,0) = -normal`, so the
triple (east, north, normal) is left-handed, not right-handed. -/
theorem C7_right_handed_counterexample :
    (PlaneData.add_data .fresh
        (.ytCuttingPlane ⟨1, 0, 0⟩ ⟨0, 0, 1⟩ ⟨3, 3, 3⟩) 2 0).1.normal =
      some ⟨1, 0, 0⟩ ∧
    (PlaneData.add_data .fresh
        (.ytCuttingPlane ⟨1, 0, 0⟩ ⟨0, 0, 1⟩ ⟨3, 3, 3⟩) 2 0).1.north_vec =
      some ⟨0, 0, 1⟩ ∧
    (PlaneData.add_data .fresh
        (.ytCuttingPlane ⟨1, 0, 0⟩ ⟨0, 0, 1⟩ ⟨3, 3, 3⟩) 2 0).1.east_vec =
      some ⟨0, -1, 0⟩ ∧
    Vec3.cross ⟨0, -1, 0⟩ ⟨0, 0, 1⟩ = ⟨-1, 0, 0⟩ ∧
    (⟨-1, 0, 0⟩ : Vec3) ≠ ⟨1, 0, 0⟩ := by
  refine ⟨?_, ?_, ?_, ?_, ?_⟩
  · show some (Vec3.divScalar ⟨1, 0, 0⟩ (norm3 ⟨1, 0, 0⟩)) = _
    rw [norm3_e1]
    unfold Vec3.divScalar
    norm_num
  · show some (Vec3.divScalar ⟨0, 0, 1⟩ (norm3 ⟨0, 0, 1⟩)) = _
    rw [norm3_e3]
    unfold Vec3.divScalar
    norm_num
  · show some (Vec3.cross (Vec3.divScalar ⟨1, 0, 0⟩ (norm3 ⟨1, 0, 0⟩))
      (Vec3.divScalar ⟨0, 0, 1⟩ (norm3 ⟨0, 0, 1⟩))) = _
    rw [norm3_e1, norm3_e3]
    unfold Vec3.divScalar Vec3.cross
    norm_num
  · unfold Vec3.cross
    norm_num
  · norm_num [Vec3.mk.injEq]

/-- Claim C7 (amended): for a CuttingPlane source descriptor,
`PlaneData.add_data` sets `north_vec` and `normal` to the source's vectors
normalized to unit length and `east_vec = normal × north` (cross product of
the normalized vectors); assuming the source's normal and north vectors are
orthogonal (and their norms exactly representable), the resulting
(east, north, normal) is an orthonormal triple that satisfies
`normal × north = east` and `east × north = -normal` — i.e. the triple
(normal, north, east) is right-handed while (east, north, normal) is
left-handed. -/
theorem C7_cutting_triple_amended (st : PlaneDataState) (nv NV c : Vec3)
    (w t s1 s2 : ℚ) (hs1 : 0 < s1) (h1 : s1 * s1 = nv.normSq)
    (hs2 : 0 < s2) (h2 : s2 * s2 = NV.normSq) (horth : nv.dot NV = 0) :
    (PlaneData.add_data st (.ytCuttingPlane nv NV c) w t).1.normal =
      some (nv.divScalar (norm3 nv)) ∧
    (PlaneData.add_data st (.ytCuttingPlane nv NV c) w t).1.north_vec =
      some (NV.divScalar (norm3 NV)) ∧
    (PlaneData.add_data st (.ytCuttingPlane nv NV c) w t).1.east_vec =
      some ((nv.divScalar (norm3 nv)).cross (NV.divScalar (norm3 NV))) ∧
    orthonormalTriple
      ((nv.divScalar (norm3 nv)).cross (NV.divScalar (norm3 NV)))
      (NV.divScalar (norm3 NV)) (nv.divScalar (norm3 nv)) ∧
    ((nv.divScalar (norm3 nv)).cross (NV.divScalar (norm3 NV))).cross
      (NV.divScalar (norm3 NV)) = (nv.divScalar (norm3 nv)).neg := by
  have hn1 : norm3 nv = s1 := norm3_eq nv s1 hs1.le h1
  have hn2 : norm3 NV = s2 := norm3_eq NV s2 hs2.le h2
  have hs1' : s1 ≠ 0 := ne_of_gt hs1
  have hs2' : s2 ≠ 0 := ne_of_gt hs2
  have hu : (nv.divScalar (norm3 nv)).normSq = 1 := by
    rw [hn1, Vec3.normSq_divScalar _ _ hs1', ← h1,
      div_self (mul_ne_zero hs1' hs1')]
  have hU : (NV.divScalar (norm3 NV)).normSq = 1 := by
    rw [hn2, Vec3.normSq_divScalar _ _ hs2', ← h2,
      div_self (mul_ne_zero hs2' hs2')]
  have hdot : (nv.divScalar (norm3 nv)).dot (NV.divScalar (norm3 NV)) = 0 := by
    rw [hn1, hn2, Vec3.dot_divScalar _ _ _ _ hs1' hs2', horth, zero_div]
  refine ⟨rfl, rfl, rfl, ⟨?_, hU, hu, ?_, ?_, ?_⟩, ?_⟩
  · rw [Vec3.normSq_cross, hu, hU, hdot]
    ring
  · exact Vec3.cross_dot_right _ _
  · exact Vec3.cross_dot_left _ _
  · show Vec3.dot _ _ = 0
    unfold Vec3.dot
    unfold Vec3.dot at hdot
    linarith [hdot]
  · exact Vec3.cross_cross_right _ _ hdot hU

/-- Witness for the amended C7 at the concrete cutting-plane source with
normal `(1,0,0)`, north `(0,0,1)` (both of unit norm), which are
orthogonal. -/
theorem C7_cutting_triple_amended_witness :
    (0 : ℚ) < 1 ∧ (1 : ℚ) * 1 = Vec3.normSq ⟨1, 0, 0⟩ ∧
    (1 : ℚ) * 1 = Vec3.normSq ⟨0, 0, 1⟩ ∧
    Vec3.dot ⟨1, 0, 0⟩ ⟨0, 0, 1⟩ = 0 ∧
    (PlaneData.add_data .fresh
        (.ytCuttingPlane ⟨1, 0, 0⟩ ⟨0, 0, 1⟩ ⟨3, 3, 3⟩) 2 0).1.east_vec =
      some ((Vec3.divScalar ⟨1, 0, 0⟩ (norm3 ⟨1, 0, 0⟩)).cross
        (Vec3.divScalar ⟨0, 0, 1⟩ (norm3 ⟨0, 0, 1⟩))) ∧
    orthonormalTriple
      ((Vec3.divScalar ⟨1, 0, 0⟩ (norm3 ⟨1, 0, 0⟩)).cross
        (Vec3.divScalar ⟨0, 0, 1⟩ (norm3 ⟨0, 0, 1⟩)))
      (Vec3.divScalar ⟨0, 0, 1⟩ (norm3 ⟨0, 0, 1⟩))
      (Vec3.divScalar ⟨1, 0, 0⟩ (norm3 ⟨1, 0, 0⟩)) ∧
    ((Vec3.divScalar ⟨1, 0, 0⟩ (norm3 ⟨1, 0, 0⟩)).cross
        (Vec3.divScalar ⟨0, 0, 1⟩ (norm3 ⟨0, 0, 1⟩))).cross
      (Vec3.divScalar ⟨0, 0, 1⟩ (norm3 ⟨0, 0, 1⟩)) =
      (Vec3.divScalar ⟨1, 0, 0⟩ (norm3 ⟨1, 0, 0⟩)).neg := by
  have hnv : (1 : ℚ) * 1 = Vec3.normSq ⟨1, 0, 0⟩ := by
    unfold Vec3.normSq; norm_num
  have hNV : (1 : ℚ) * 1 = Vec3.normSq ⟨0, 0, 1⟩ := by
    unfold Vec3.normSq; norm_num
  have hd : Vec3.dot ⟨1, 0, 0⟩ ⟨0, 0, 1⟩ = 0 := by
    unfold Vec3.dot; norm_num
  obtain ⟨-, -, he, hortho, hcross⟩ :=
    C7_cutting_triple_amended .fresh ⟨1, 0, 0⟩ ⟨0, 0, 1⟩ ⟨3, 3, 3⟩ 2 0 1 1
      one_pos hnv one_pos hNV hd
  exact ⟨one_pos, hnv, hNV, hd, he, hortho, hcross⟩

/-- Claim C8 is false on the "no partial spec" part: on an unrecognized
source kind `add_data` raises the unexpected-type `ValueError`, but
`self.data` has already been assigned (from the FRB) before the dispatch,
so a partial assignment is left behind. -/
theorem C8_partial_data_counterexample :
    (PlaneData.add_data .fresh .other 2 0).2 =
      .error .unsupportedSourceKind ∧
    (PlaneData.add_data .fresh .other 2 0).1.data ≠ none :=
  ⟨rfl, by simp [PlaneData.add_data, PlaneDataState.fresh]⟩

/-- Claim C8 (amended): for a source descriptor of unrecognized kind,
`add_data` fails with the unexpected-type `ValueError`; the geometry
fields (normal, center, width, height, east/north basis vectors) are left
untouched, but `self.data` has already been assigned from the FRB when the
error is raised. -/
theorem C8_unsupported_kind_amended (st : PlaneDataState) (w t : ℚ) :
    PlaneData.add_data st .other w t =
      ({ st with data := some () }, .error .unsupportedSourceKind) := rfl

/-- Claim C9: every transform `_set_plane` returns is affine — its bottom
row is exactly (0, 0, 0, 1), with and without the cutting-plane correction
— so every homogeneous point (u, v, 0, 1) maps to a point with fourth
coordinate 1. -/
theorem C9_affine_bottom_row (spec : PlaneSpec) (M : Mat4)
    (hM : BasePlane.set_plane spec = .ok M) :
    (M.m30 = 0 ∧ M.m31 = 0 ∧ M.m32 = 0 ∧ M.m33 = 1) ∧
    ∀ u v : ℚ, (M.mulVec ⟨u, v, 0, 1⟩).w = 1 := by
  cases hres : BasePlane.resolveBasis spec with
  | error err =>
    unfold BasePlane.set_plane at hM
    rw [hres] at hM
    exact absurd hM (by simp)
  | ok val =>
    obtain ⟨e, n, un⟩ := val
    by_cases hk : spec.sourceKind = SourceKind.cuttingPlane
    · rw [set_plane_cutting spec e n un hres hk] at hM
      injection hM with hMeq
      subst hMeq
      refine ⟨⟨?_, ?_, ?_, ?_⟩, fun u v => ?_⟩ <;>
        · simp only [Mat4.mul, Mat4.mulVec, translateMat, toWorldMat,
            scaleMat, Mat4.eye]
          ring
    · rw [set_plane_not_cutting spec e n un hres hk] at hM
      injection hM with hMeq
      subst hMeq
      refine ⟨⟨?_, ?_, ?_, ?_⟩, fun u v => ?_⟩ <;>
        · simp only [Mat4.mul, Mat4.mulVec, translateMat, toWorldMat,
            scaleMat, Mat4.eye]
          ring

/-- Witness for C9 at `axSpec` / `axM`, with the homogeneous-coordinate
fact instantiated at (u, v) = (1/2, 1/3). -/
theorem C9_affine_bottom_row_witness :
    BasePlane.set_plane axSpec = .ok axM ∧
    (axM.m30 = 0 ∧ axM.m31 = 0 ∧ axM.m32 = 0 ∧ axM.m33 = 1) ∧
    (axM.mulVec ⟨1/2, 1/3, 0, 1⟩).w = 1 :=
  ⟨set_plane_axSpec,
   (C9_affine_bottom_row axSpec axM set_plane_axSpec).1,
   (C9_affine_bottom_row axSpec axM set_plane_axSpec).2 (1/2) (1/3)⟩

/-- Claim C10: for every supported source kind the non-axis-aligned failure
branch of `_set_plane` is unreachable — slices and projections always
produce an exactly axis-aligned normal, and cutting planes always assign
explicit east/north vectors first. -/
theorem C10_supported_kind_no_axis_error (st : PlaneDataState)
    (src : DataSource) (w t : ℚ) (h : src ≠ .other) :
    (PlaneData.add_data st src w t).2 ≠ .error .nonAxisAligned := by
  cases src with
  | other => exact absurd rfl h
  | ytSlice axis coord =>
    apply except_isOk_ne_error
    exact set_plane_isOk _ (resolveBasis_isOk_of_axis _ axis rfl)
  | ytProj axis =>
    apply except_isOk_ne_error
    exact set_plane_isOk _ (resolveBasis_isOk_of_axis _ axis rfl)
  | ytCuttingPlane nv NV c =>
    apply except_isOk_ne_error
    simp only [PlaneData.add_data, PlaneData.add_data.add_data_common]
    exact set_plane_isOk _ (resolveBasis_isOk_of_basis _ _ _ rfl rfl)

/-- Witness for C10 at a concrete slice source. -/
theorem C10_supported_kind_no_axis_error_witness :
    (DataSource.ytSlice 0 3) ≠ DataSource.other ∧
    (PlaneData.add_data .fresh (.ytSlice 0 3) 2 0).2 ≠
      .error .nonAxisAligned :=
  ⟨by simp,
   C10_supported_kind_no_axis_error .fresh (.ytSlice 0 3) 2 0 (by simp)⟩

end YtIdv
